import Mathlib

/-!
Verification of the MiniOS `vi` editor core (`src/MiniOs/rootfs/bin/vi.c`).

The editor state (the C globals of `vi.c`) is embedded as the structure
`VState`; every C function becomes a Lean function on `VState`.  C strings
are `List Char`, C ints are `Int` (cursor coordinates can go negative in the
source, so `Nat` would be unfaithful).  The live portion of the fixed
512-slot `lines` array (the prefix of length `line_count`) is modelled as a
`List (List Char)`, so `line_count` is the list length; the source never
reads a slot at or beyond `line_count`.

External collaborators (the MiniC runtime, which is not part of this
repository's sources) are modelled where the editor consumes them: storage
is an association list carried in the state, the key-code table is a `Keys`
parameter, the per-frame console size is an input of the loop step.
-/

set_option autoImplicit false

namespace MiniVi

/-- MAX_LINE_COUNT from vi.c. -/
def MAX_LINE_COUNT : Nat := 512

/-- The three editor modes (`MODE_NORMAL` / `MODE_INSERT` / `MODE_COMMAND`). -/
inductive Mode where
  | normal
  | insert
  | command
  deriving DecidableEq, Repr

/-- The key codes `init_key_constants` obtains from the host (`keycode(...)`
with fixed fallbacks for enter/esc/backspace/tab). They are opaque to the
editor, so we keep them as a parameter of the model. -/
structure Keys where
  key_up : Int
  key_down : Int
  key_left : Int
  key_right : Int
  key_delete : Int
  key_enter : Int
  key_escape : Int
  key_backspace : Int
  key_home : Int
  key_end : Int
  key_pageup : Int
  key_pagedown : Int
  key_tab : Int
  deriving DecidableEq, Repr

/-- The ASCII code of a character, as an `Int` (C character literals). -/
def ch (c : Char) : Int := (c.toNat : Int)

/-- Modelled from the spec: the storage collaborator (`exists`/`readall`)
as an association list from path to contents; `none` means the path does
not exist. -/
def fs_lookup (fs : List (List Char × List Char)) (path : List Char) :
    Option (List Char) :=
  match fs with
  | [] => none
  | (p, contents) :: rest => if p = path then some contents else fs_lookup rest path

/-- Modelled from the spec: the storage collaborator's `writeall`, which
replaces (or creates) the whole contents stored at `path`. -/
def fs_store (fs : List (List Char × List Char)) (path payload : List Char) :
    List (List Char × List Char) :=
  match fs with
  | [] => [(path, payload)]
  | (p, c) :: rest =>
      if p = path then (p, payload) :: rest else (p, c) :: fs_store rest path payload

/-- The mutable globals of vi.c bundled into one state record.  `fs` and
`write_ok` model the external storage collaborator: `fs` its current
contents, `write_ok` the status it reports for a write (vi.c's `save_to`
discards that status). -/
structure VState where
  lines : List (List Char)
  cursor_line : Int
  cursor_col : Int
  viewport_top : Int
  viewport_left : Int
  dirty : Bool
  running : Bool
  mode : Mode
  screen_rows : Int
  screen_cols : Int
  body_rows : Int
  content_width : Int
  pending_delete : Bool
  status_message : String
  command_buffer : List Char
  filename : List Char
  fs : List (List Char × List Char)
  write_ok : Bool
  deriving DecidableEq, Repr

/-- `is_space` from vi.c (codes 32, 9, 13, 10), on characters. -/
def is_space (c : Char) : Bool :=
  c.toNat = 32 ∨ c.toNat = 9 ∨ c.toNat = 13 ∨ c.toNat = 10

/-- `trim` from vi.c: drop leading and trailing `is_space` characters. -/
def trim (text : List Char) : List Char :=
  ((text.dropWhile is_space).reverse.dropWhile is_space).reverse

/-- `set_status` from vi.c. -/
def set_status (s : VState) (text : String) : VState :=
  { s with status_message := text }

/-- `reset_buffer` from vi.c: clears all line slots and sets `line_count`
to zero (the live prefix becomes empty). -/
def reset_buffer (s : VState) : VState :=
  { s with lines := [] }

/-- `ensure_min_line` from vi.c. -/
def ensure_min_line (s : VState) : VState :=
  if s.lines.length = 0 then { s with lines := [[]] } else s

/-- `line_length` from vi.c: 0 for an out-of-range index, else the length
of the line at `index`. -/
def line_length (s : VState) (index : Int) : Int :=
  if index < 0 ∨ (s.lines.length : Int) ≤ index then 0
  else ((s.lines.getD index.toNat []).length : Int)

/-- `clamp_cursor` from vi.c. -/
def clamp_cursor (s : VState) : VState :=
  if (s.lines.length : Int) = 0 then { s with cursor_line := 0, cursor_col := 0 }
  else
    let cl0 := if s.cursor_line < 0 then 0 else s.cursor_line
    let cl1 := if (s.lines.length : Int) ≤ cl0 then (s.lines.length : Int) - 1 else cl0
    let cl2 := if cl1 < 0 then 0 else cl1
    let len := line_length s cl2
    let cc0 := if s.cursor_col < 0 then 0 else s.cursor_col
    let cc1 := if len < cc0 then len else cc0
    { s with cursor_line := cl2, cursor_col := cc1 }

/-- The splitting loop inside `load_document`: scan to the next line feed,
take the piece, continue after the line feed; the capacity argument is the
remaining room up to `MAX_LINE_COUNT` (the loop guard `line_count <
MAX_LINE_COUNT`). -/
def load_split : Nat → List Char → List (List Char)
  | 0, _ => []
  | cap + 1, text =>
      let piece := text.takeWhile (fun c => c ≠ '\n')
      match text.dropWhile (fun c => c ≠ '\n') with
      | [] => [piece]
      | _ :: tail => piece :: load_split cap tail

/-- Modelled from the spec: the full line-feed split of a text (the "lines"
of a text, with a trailing line feed producing a trailing empty line).
This is the reference notion used to compare `load_document` against;
it has no capacity bound. -/
def spec_lines : List Char → List (List Char)
  | [] => [[]]
  | c :: rest =>
      if c = '\n' then [] :: spec_lines rest
      else
        match spec_lines rest with
        | [] => [[c]]
        | l :: ls => (c :: l) :: ls

/-- `load_document` from vi.c. -/
def load_document (s : VState) (text : List Char) : VState :=
  let s1 := reset_buffer s
  let s2 := { s1 with lines := load_split MAX_LINE_COUNT text }
  let s3 := ensure_min_line s2
  { s3 with dirty := false, cursor_line := 0, cursor_col := 0,
            viewport_top := 0, viewport_left := 0 }

/-- `join_lines` from vi.c: concatenate the lines with a line feed between
consecutive lines and no trailing separator. -/
def join_lines : List (List Char) → List Char
  | [] => []
  | [l] => l
  | l :: ls => l ++ '\n' :: join_lines ls

/-- `insert_line` from vi.c: fails (status "buffer full") at capacity,
otherwise clamps the index into `[0, line_count]`, inserts, and sets the
dirty flag.  The `Bool` is the C return value. -/
def insert_line (s : VState) (index : Int) (text : List Char) : Bool × VState :=
  if MAX_LINE_COUNT ≤ s.lines.length then (false, set_status s "buffer full")
  else
    let i0 := if index < 0 then 0 else index
    let i1 := if (s.lines.length : Int) < i0 then (s.lines.length : Int) else i0
    (true, { s with lines := s.lines.insertIdx i1.toNat text, dirty := true })

/-- `delete_line` from vi.c: a no-op for an out-of-range index; resets the
only line to empty when `line_count == 1`; otherwise removes the line,
pulling the cursor line up if it fell past the new end. -/
def delete_line (s : VState) (index : Int) : VState :=
  if index < 0 ∨ (s.lines.length : Int) ≤ index then s
  else if s.lines.length = 1 then
    { s with lines := [[]], cursor_line := 0, cursor_col := 0, dirty := true }
  else
    let lc : Int := s.lines.length
    let cl := if lc - 1 ≤ s.cursor_line then lc - 2 else s.cursor_line
    { s with lines := s.lines.eraseIdx index.toNat, cursor_line := cl, dirty := true }

/-- `insert_char` from vi.c: splice the key's character into the current
line at the (column-clamped) cursor and advance the cursor column. -/
def insert_char (s : VState) (key : Int) : VState :=
  let line := s.lines.getD s.cursor_line.toNat []
  let len := line_length s s.cursor_line
  let col := if len < s.cursor_col then len else s.cursor_col
  let merged := line.take col.toNat ++ [Char.ofNat key.toNat] ++ line.drop col.toNat
  { s with lines := s.lines.set s.cursor_line.toNat merged,
           cursor_col := col + 1, dirty := true }

/-- `insert_newline` from vi.c: truncate the current line at the cursor,
then try to insert the tail as a new line below; the cursor only moves when
that insertion succeeded.  (Note the truncation happens before the capacity
check inside `insert_line`.) -/
def insert_newline (s : VState) : VState :=
  let line := s.lines.getD s.cursor_line.toNat []
  let len := line_length s s.cursor_line
  let col := if len < s.cursor_col then len else s.cursor_col
  let s1 := { s with cursor_col := col,
                     lines := s.lines.set s.cursor_line.toNat (line.take col.toNat) }
  let r := insert_line s1 (s1.cursor_line + 1) (line.drop col.toNat)
  if r.1 then { r.2 with cursor_line := r.2.cursor_line + 1, cursor_col := 0 }
  else r.2

/-- `backspace_char` from vi.c. -/
def backspace_char (s : VState) : VState :=
  let len := line_length s s.cursor_line
  let col := if len < s.cursor_col then len else s.cursor_col
  let s0 := { s with cursor_col := col }
  if 0 < col then
    let line := s0.lines.getD s0.cursor_line.toNat []
    let merged := line.take (col - 1).toNat ++ line.drop col.toNat
    { s0 with lines := s0.lines.set s0.cursor_line.toNat merged,
              cursor_col := col - 1, dirty := true }
  else if s0.cursor_line = 0 then s0
  else
    let prev_len := line_length s0 (s0.cursor_line - 1)
    let merged := s0.lines.getD (s0.cursor_line - 1).toNat [] ++
                  s0.lines.getD s0.cursor_line.toNat []
    let s1 := { s0 with lines := s0.lines.set (s0.cursor_line - 1).toNat merged }
    let s2 := delete_line s1 s1.cursor_line
    { s2 with cursor_line := s2.cursor_line - 1, cursor_col := prev_len }

/-- `delete_char_forward` from vi.c. -/
def delete_char_forward (s : VState) : VState :=
  let line := s.lines.getD s.cursor_line.toNat []
  let len := line_length s s.cursor_line
  let col := if len < s.cursor_col then len else s.cursor_col
  let s0 := { s with cursor_col := col }
  if len = 0 ∧ s0.cursor_line < (s0.lines.length : Int) - 1 then
    let merged := s0.lines.getD s0.cursor_line.toNat [] ++
                  s0.lines.getD (s0.cursor_line + 1).toNat []
    let s1 := { s0 with lines := s0.lines.set s0.cursor_line.toNat merged }
    { delete_line s1 (s1.cursor_line + 1) with dirty := true }
  else if len ≤ col then
    if s0.cursor_line < (s0.lines.length : Int) - 1 then
      let merged := line ++ s0.lines.getD (s0.cursor_line + 1).toNat []
      let s1 := { s0 with lines := s0.lines.set s0.cursor_line.toNat merged }
      { delete_line s1 (s1.cursor_line + 1) with dirty := true }
    else s0
  else
    let merged := line.take col.toNat ++ line.drop (col + 1).toNat
    { s0 with lines := s0.lines.set s0.cursor_line.toNat merged, dirty := true }

/-- `delete_current_line` from vi.c (the action of the `dd` chord). -/
def delete_current_line (s : VState) : VState :=
  let s1 := ensure_min_line (delete_line s s.cursor_line)
  let s2 := if (s1.lines.length : Int) ≤ s1.cursor_line then
              { s1 with cursor_line := (s1.lines.length : Int) - 1 }
            else s1
  set_status { s2 with cursor_col := 0 } "line deleted"

/-- `move_left` from vi.c. -/
def move_left (s : VState) : VState :=
  if 0 < s.cursor_col then { s with cursor_col := s.cursor_col - 1 }
  else if 0 < s.cursor_line then
    { s with cursor_line := s.cursor_line - 1,
             cursor_col := line_length s (s.cursor_line - 1) }
  else s

/-- `move_right` from vi.c. -/
def move_right (s : VState) : VState :=
  if s.cursor_col < line_length s s.cursor_line then
    { s with cursor_col := s.cursor_col + 1 }
  else if s.cursor_line < (s.lines.length : Int) - 1 then
    { s with cursor_line := s.cursor_line + 1, cursor_col := 0 }
  else s

/-- `move_up` from vi.c. -/
def move_up (s : VState) : VState :=
  if 0 < s.cursor_line then
    let len := line_length s (s.cursor_line - 1)
    { s with cursor_line := s.cursor_line - 1,
             cursor_col := if len < s.cursor_col then len else s.cursor_col }
  else s

/-- `move_down` from vi.c. -/
def move_down (s : VState) : VState :=
  if s.cursor_line < (s.lines.length : Int) - 1 then
    let len := line_length s (s.cursor_line + 1)
    { s with cursor_line := s.cursor_line + 1,
             cursor_col := if len < s.cursor_col then len else s.cursor_col }
  else s

/-- `move_home` from vi.c. -/
def move_home (s : VState) : VState :=
  { s with cursor_col := 0 }

/-- `move_end` from vi.c. -/
def move_end (s : VState) : VState :=
  { s with cursor_col := line_length s s.cursor_line }

/-- `page_up` from vi.c. -/
def page_up (s : VState) : VState :=
  let step := if s.body_rows < 1 then 1 else s.body_rows
  let cl := s.cursor_line - step
  clamp_cursor { s with cursor_line := if cl < 0 then 0 else cl }

/-- `page_down` from vi.c. -/
def page_down (s : VState) : VState :=
  let step := if s.body_rows < 1 then 1 else s.body_rows
  let cl := s.cursor_line + step
  clamp_cursor
    { s with cursor_line := if (s.lines.length : Int) ≤ cl then (s.lines.length : Int) - 1 else cl }

/-- `enter_insert_mode` from vi.c. -/
def enter_insert_mode (s : VState) : VState :=
  set_status { s with mode := Mode.insert, pending_delete := false } "-- INSERT --"

/-- `exit_insert_mode` from vi.c. -/
def exit_insert_mode (s : VState) : VState :=
  let s1 := { s with mode := Mode.normal, command_buffer := [], pending_delete := false }
  let s2 := if 0 < s1.cursor_col then { s1 with cursor_col := s1.cursor_col - 1 } else s1
  set_status (clamp_cursor s2) ""

/-- `start_command_mode` from vi.c. -/
def start_command_mode (s : VState) : VState :=
  { s with mode := Mode.command, command_buffer := [], pending_delete := false }

/-- `cancel_command_mode` from vi.c. -/
def cancel_command_mode (s : VState) : VState :=
  set_status { s with mode := Mode.normal, command_buffer := [] } "command cancelled"

/-- `append_command_char` from vi.c. -/
def append_command_char (s : VState) (key : Int) : VState :=
  { s with command_buffer := s.command_buffer ++ [Char.ofNat key.toNat] }

/-- `command_backspace` from vi.c. -/
def command_backspace (s : VState) : VState :=
  if s.command_buffer.length = 0 then s
  else { s with command_buffer := s.command_buffer.take (s.command_buffer.length - 1) }

/-- `open_document` from vi.c: bind the path, then load it if it exists,
else start a fresh single-empty-line document. -/
def open_document (s : VState) (path : List Char) : VState :=
  let s0 := { s with filename := path }
  match fs_lookup s0.fs path with
  | some contents => set_status (load_document s0 contents) "opened file"
  | none =>
      let s1 := ensure_min_line (reset_buffer s0)
      set_status { s1 with dirty := false, cursor_line := 0, cursor_col := 0,
                           viewport_top := 0, viewport_left := 0 } "new file"

/-- `save_to` from vi.c: refuses an empty path; otherwise writes the joined
document to storage, clears the dirty flag, and reports success — the
status returned by `writeall` is discarded by the source. -/
def save_to (s : VState) (path : List Char) : Bool × VState :=
  if path.length = 0 then (false, set_status s "No file name")
  else
    (true, set_status { s with fs := fs_store s.fs path (join_lines s.lines),
                               dirty := false } "file written")

/-- `update_screen_metrics` from vi.c, with the console's reported size as
input. -/
def update_screen_metrics (s : VState) (rows cols : Int) : VState :=
  let sr := if rows < 4 then 4 else rows
  let sc := if cols < 10 then 10 else cols
  let br := if sr - 2 < 1 then 1 else sr - 2
  let cw := if sc - 6 < 8 then 8 else sc - 6
  { s with screen_rows := sr, screen_cols := sc, body_rows := br, content_width := cw }

/-- `adjust_viewport` from vi.c. -/
def adjust_viewport (s : VState) : VState :=
  let t0 := if s.cursor_line < s.viewport_top then s.cursor_line else s.viewport_top
  let t1 := if t0 + s.body_rows ≤ s.cursor_line then s.cursor_line - s.body_rows + 1 else t0
  let t2 := if t1 < 0 then 0 else t1
  let t3 := if (s.lines.length : Int) - 1 < t2 then (s.lines.length : Int) - 1 else t2
  let t4 := if t3 < 0 then 0 else t3
  let l0 := if s.cursor_col < s.viewport_left then s.cursor_col else s.viewport_left
  let l1 := if l0 + s.content_width ≤ s.cursor_col then s.cursor_col - s.content_width + 1 else l0
  let l2 := if l1 < 0 then 0 else l1
  { s with viewport_top := t4, viewport_left := l2 }

/-- `execute_command` from vi.c: interpret the trimmed command buffer.
Every branch ends by returning to NORMAL mode with a cleared buffer. -/
def execute_command (s : VState) : VState :=
  let command := trim s.command_buffer
  let finish := fun (t : VState) => { t with mode := Mode.normal, command_buffer := [] }
  if command.length = 0 then finish (set_status s "")
  else if command = "help".data then
    finish (set_status s "Commands: :w, :q, :wq, :e <file>, ESC to cancel")
  else if command = "q".data then
    if s.dirty then finish (set_status s "No write since last change (use :q!)")
    else finish { s with running := false }
  else if command = "q!".data then finish { s with running := false }
  else if command = "w".data then
    if s.filename.length = 0 then finish (set_status s "Specify file name with :w <path>")
    else finish (save_to s s.filename).2
  else if command = "wq".data ∨ command = "wq!".data then
    if s.filename.length = 0 then finish (set_status s "Specify file name first")
    else
      let r := save_to s s.filename
      if r.1 then finish { r.2 with running := false } else finish r.2
  else if List.isPrefixOf "w ".data command then
    let path := trim (command.drop 2)
    if 0 < path.length then finish (save_to { s with filename := path } path).2
    else finish (set_status s "No file name provided")
  else if List.isPrefixOf "e ".data command then
    let path := trim (command.drop 2)
    if 0 < path.length then finish (open_document s path)
    else finish (set_status s "No file path provided")
  else finish (set_status s "Unknown command")

/-- The mode-transition / dispatch part of `handle_normal_key` (the chain
of key tests after the pending-chord preamble). -/
def normal_key_action (K : Keys) (s : VState) (key : Int) : VState :=
  if key = ch 'h' ∨ key = K.key_left then move_left s
  else if key = ch 'l' ∨ key = K.key_right then move_right s
  else if key = ch 'j' ∨ key = K.key_down then move_down s
  else if key = ch 'k' ∨ key = K.key_up then move_up s
  else if key = ch '0' ∨ key = K.key_home then move_home s
  else if key = ch '$' ∨ key = K.key_end then move_end s
  else if key = K.key_pageup then page_up s
  else if key = K.key_pagedown then page_down s
  else if key = ch 'x' ∨ key = K.key_delete then delete_char_forward s
  else if key = ch 'd' then
    set_status { s with pending_delete := true } "d - waiting for next d"
  else if key = ch 'i' then enter_insert_mode s
  else if key = ch 'a' then enter_insert_mode (move_right s)
  else if key = ch 'o' then
    let r := insert_line s (s.cursor_line + 1) []
    if r.1 then
      enter_insert_mode { r.2 with cursor_line := r.2.cursor_line + 1, cursor_col := 0 }
    else r.2
  else if key = ch 'O' then
    let r := insert_line s s.cursor_line []
    if r.1 then enter_insert_mode { r.2 with cursor_col := 0 }
    else r.2
  else if key = ch ':' then start_command_mode s
  else if key = K.key_escape then set_status s ""
  else s

/-- `handle_normal_key` from vi.c: the pending-chord preamble (a second `d`
deletes the current line; any other key clears the flag and then receives
its ordinary treatment in the same call), then the key dispatch. -/
def handle_normal_key (K : Keys) (s : VState) (key : Int) : VState :=
  if s.pending_delete then
    if key = ch 'd' then { delete_current_line s with pending_delete := false }
    else normal_key_action K { s with pending_delete := false } key
  else normal_key_action K s key

/-- `handle_insert_key` from vi.c. -/
def handle_insert_key (K : Keys) (s : VState) (key : Int) : VState :=
  if key = K.key_escape then exit_insert_mode s
  else if key = K.key_left then move_left s
  else if key = K.key_right then move_right s
  else if key = K.key_up then move_up s
  else if key = K.key_down then move_down s
  else if key = K.key_home then move_home s
  else if key = K.key_end then move_end s
  else if key = K.key_pageup then page_up s
  else if key = K.key_pagedown then page_down s
  else if key = K.key_enter then insert_newline s
  else if key = K.key_backspace then backspace_char s
  else if key = K.key_delete then delete_char_forward s
  else if key = K.key_tab then insert_char (insert_char s 32) 32
  else if 32 ≤ key then insert_char s key
  else s

/-- `handle_command_key` from vi.c. -/
def handle_command_key (K : Keys) (s : VState) (key : Int) : VState :=
  if key = K.key_escape then cancel_command_mode s
  else if key = K.key_enter then execute_command s
  else if key = K.key_backspace then command_backspace s
  else if 32 ≤ key then append_command_char s key
  else s

/-- The state-relevant part of `render`: clamp the cursor, refresh the
screen metrics from the console's reported size, and adjust the viewport
(the drawing itself only reads the state). -/
def render_state (s : VState) (rows cols : Int) : VState :=
  adjust_viewport (update_screen_metrics (clamp_cursor s) rows cols)

/-- One iteration of the `main` event loop: render, read one key (a
negative code means "no key", the loop just re-renders), and dispatch it to
the active mode's handler. -/
def loop_step (K : Keys) (s : VState) (rows cols key : Int) : VState :=
  let r := render_state s rows cols
  if key < 0 then r
  else if r.mode = Mode.insert then handle_insert_key K r key
  else if r.mode = Mode.command then handle_command_key K r key
  else handle_normal_key K r key

/-- The session state right after `main`'s initialization: the C globals'
initial values, then `reset_buffer`, `ensure_min_line`, the path prompt
(empty answer defaults to `/home/user/vi.txt`), `open_document`, and the
final `ensure_min_line`. -/
def init_state (fs : List (List Char × List Char)) (wok : Bool)
    (path : List Char) : VState :=
  let s0 : VState :=
    { lines := [], cursor_line := 0, cursor_col := 0,
      viewport_top := 0, viewport_left := 0,
      dirty := false, running := true, mode := Mode.normal,
      screen_rows := 24, screen_cols := 80, body_rows := 22, content_width := 72,
      pending_delete := false, status_message := "Press :help for commands",
      command_buffer := [], filename := [], fs := fs, write_ok := wok }
  let s1 := ensure_min_line (reset_buffer s0)
  let sel := if (trim path).length = 0 then "/home/user/vi.txt".data else trim path
  ensure_min_line (open_document { s1 with filename := sel } sel)

/-- The reachable session states: the state after initialization, and the
state after each further event-loop iteration (each console-size report and
key event). -/
inductive Reachable (K : Keys) (fs : List (List Char × List Char)) (wok : Bool)
    (path : List Char) : VState → Prop where
  | init : Reachable K fs wok path (init_state fs wok path)
  | step : ∀ s rows cols key, Reachable K fs wok path s →
      Reachable K fs wok path (loop_step K s rows cols key)

/-! ### Concrete instances used in example runs -/

/-- A concrete key-code table for concrete executions: the fixed fallback
codes for enter/esc/backspace/tab, and pairwise-distinct codes outside the
printable range for the symbolic keys. -/
def K0 : Keys :=
  { key_up := 1000, key_down := 1001, key_left := 1002, key_right := 1003,
    key_delete := 1004, key_enter := 10, key_escape := 27, key_backspace := 8,
    key_home := 1005, key_end := 1006, key_pageup := 1007, key_pagedown := 1008,
    key_tab := 9 }

/-- A concrete session start: empty storage, storage reports write success,
file path `f` (which does not exist, so the session opens a fresh one-line
document). -/
def base_state : VState := init_state [] true ['f']

/-! ### Splitting and joining (`load_document` / `join_lines`) -/

theorem spec_lines_cons_nl (rest : List Char) :
    spec_lines ('\n' :: rest) = [] :: spec_lines rest := by
  conv_lhs => unfold spec_lines
  simp

theorem spec_lines_cons_other (c : Char) (rest : List Char) (hc : ¬c = '\n')
    (l : List Char) (ls : List (List Char)) (h : spec_lines rest = l :: ls) :
    spec_lines (c :: rest) = (c :: l) :: ls := by
  conv_lhs => unfold spec_lines
  simp only [hc, if_false, h]

theorem spec_lines_ne_nil (T : List Char) : spec_lines T ≠ [] := by
  induction T with
  | nil => simp [spec_lines]
  | cons c rest ih =>
      by_cases hc : c = '\n'
      · subst hc
        rw [spec_lines_cons_nl]
        simp
      · obtain ⟨l, ls, h⟩ : ∃ l ls, spec_lines rest = l :: ls := by
          cases h : spec_lines rest with
          | nil => exact absurd h ih
          | cons l ls => exact ⟨l, ls, rfl⟩
        rw [spec_lines_cons_other c rest hc l ls h]
        simp

theorem dropWhile_nl_cons_of_ne (a : Char) (rest : List Char) (ha : ¬a = '\n') :
    List.dropWhile (fun c => c ≠ '\n') (a :: rest) =
      List.dropWhile (fun c => c ≠ '\n') rest := by
  rw [List.dropWhile_cons]
  simp [ha]

theorem takeWhile_nl_cons_of_ne (a : Char) (rest : List Char) (ha : ¬a = '\n') :
    List.takeWhile (fun c => c ≠ '\n') (a :: rest) =
      a :: List.takeWhile (fun c => c ≠ '\n') rest := by
  rw [List.takeWhile_cons]
  simp [ha]

theorem spec_lines_of_dropWhile_nil (T : List Char)
    (h : T.dropWhile (fun c => c ≠ '\n') = []) : spec_lines T = [T] := by
  induction T with
  | nil => simp [spec_lines]
  | cons c rest ih =>
      by_cases hc : c = '\n'
      · subst hc
        rw [List.dropWhile_cons] at h
        simp at h
      · rw [dropWhile_nl_cons_of_ne c rest hc] at h
        rw [spec_lines_cons_other c rest hc rest [] (ih h)]

theorem spec_lines_of_dropWhile_cons (T : List Char) (c : Char) (tail : List Char)
    (h : T.dropWhile (fun c => c ≠ '\n') = c :: tail) :
    spec_lines T = T.takeWhile (fun c => c ≠ '\n') :: spec_lines tail := by
  induction T with
  | nil => simp at h
  | cons a rest ih =>
      by_cases ha : a = '\n'
      · subst ha
        have hdw : List.dropWhile (fun c => c ≠ '\n') ('\n' :: rest) = '\n' :: rest := by
          rw [List.dropWhile_cons]
          simp
        rw [hdw] at h
        obtain ⟨hc, htail⟩ := List.cons.inj h
        subst htail
        rw [spec_lines_cons_nl, List.takeWhile_cons]
        simp
      · rw [dropWhile_nl_cons_of_ne a rest ha] at h
        rw [takeWhile_nl_cons_of_ne a rest ha,
            spec_lines_cons_other a rest ha _ _ (ih h)]

theorem load_split_succ (cap : Nat) (T : List Char) :
    load_split (cap + 1) T =
      match T.dropWhile (fun c => c ≠ '\n') with
      | [] => [T.takeWhile (fun c => c ≠ '\n')]
      | _ :: tail => T.takeWhile (fun c => c ≠ '\n') :: load_split cap tail := rfl

theorem load_split_eq_take (cap : Nat) (T : List Char) :
    load_split cap T = (spec_lines T).take cap := by
  induction cap generalizing T with
  | zero => simp [load_split]
  | succ n ih =>
      rw [load_split_succ]
      split
      next heq =>
          have h2 := List.takeWhile_append_dropWhile (fun c => decide (c ≠ '\n')) T
          rw [heq, List.append_nil] at h2
          rw [spec_lines_of_dropWhile_nil T heq, h2]
          simp
      next c tail heq =>
          rw [spec_lines_of_dropWhile_cons T c tail heq, ih tail]
          simp

theorem join_lines_spec_lines (T : List Char) : join_lines (spec_lines T) = T := by
  induction T with
  | nil => simp [spec_lines, join_lines]
  | cons c rest ih =>
      by_cases hc : c = '\n'
      · subst hc
        unfold spec_lines
        simp only [if_true]
        obtain ⟨l, ls, hls⟩ : ∃ l ls, spec_lines rest = l :: ls := by
          cases h : spec_lines rest with
          | nil => exact absurd h (spec_lines_ne_nil rest)
          | cons l ls => exact ⟨l, ls, rfl⟩
        rw [hls]
        rw [hls] at ih
        simpa [join_lines] using ih
      · unfold spec_lines
        simp only [hc, if_false]
        obtain ⟨l, ls, hls⟩ : ∃ l ls, spec_lines rest = l :: ls := by
          cases h : spec_lines rest with
          | nil => exact absurd h (spec_lines_ne_nil rest)
          | cons l ls => exact ⟨l, ls, rfl⟩
        rw [hls]
        rw [hls] at ih
        cases ls with
        | nil => simpa [join_lines] using congrArg (c :: ·) ih
        | cons b ls2 => simpa [join_lines] using congrArg (c :: ·) ih

theorem load_document_lines (s : VState) (T : List Char) :
    (load_document s T).lines = (spec_lines T).take MAX_LINE_COUNT := by
  have hne : (spec_lines T).take MAX_LINE_COUNT ≠ [] := by
    cases h : spec_lines T with
    | nil => exact absurd h (spec_lines_ne_nil T)
    | cons l ls => simp [h, MAX_LINE_COUNT]
  simp [load_document, reset_buffer, ensure_min_line, load_split_eq_take,
        List.length_eq_zero, hne, spec_lines_ne_nil T, MAX_LINE_COUNT]

/-- C1: for every text of at most `MAX_LINE_COUNT` (512) lines,
`join_lines` of the loaded document reproduces the text exactly; in
particular loading `"a\nb\n"` yields the three lines `a`, `b`, `""` (the
trailing line feed produces a trailing empty line), and joining those
yields `"a\nb\n"` back (one line feed between consecutive lines, none at
the end). -/
theorem c1_round_trip :
    (∀ (s : VState) (T : List Char), (spec_lines T).length ≤ MAX_LINE_COUNT →
        join_lines (load_document s T).lines = T) ∧
    (∀ s : VState, (load_document s ("a\nb\n".data)).lines = [['a'], ['b'], []]) ∧
    join_lines [['a'], ['b'], []] = "a\nb\n".data := by
  refine ⟨fun s T h => ?_, fun s => ?_, by decide⟩
  · rw [load_document_lines, List.take_of_length_le h, join_lines_spec_lines]
  · rw [load_document_lines]
    decide

/-- Witness for C1 at a concrete input. -/
theorem c1_round_trip_witness :
    join_lines (load_document base_state ("hello\nworld".data)).lines =
      "hello\nworld".data :=
  c1_round_trip.1 base_state ("hello\nworld".data) (by decide)

/-! ### C10: silent truncation past the capacity -/

theorem load_document_status (s : VState) (T : List Char) :
    (load_document s T).status_message = s.status_message := by
  simp only [load_document, reset_buffer, ensure_min_line]
  split <;> rfl

/-- C10: loading a text with more than `MAX_LINE_COUNT` (512) line-feed
separated lines keeps exactly the first 512 of them, discards the rest, and
leaves the status message untouched (no truncation notice). -/
theorem c10_truncate (s : VState) (T : List Char)
    (h : MAX_LINE_COUNT < (spec_lines T).length) :
    (load_document s T).lines = (spec_lines T).take MAX_LINE_COUNT ∧
    (load_document s T).lines.length = MAX_LINE_COUNT ∧
    (load_document s T).status_message = s.status_message := by
  refine ⟨load_document_lines s T, ?_, load_document_status s T⟩
  rw [load_document_lines]
  rw [List.length_take]
  omega

theorem spec_lines_replicate_nl (n : Nat) :
    spec_lines (List.replicate n '\n') = List.replicate (n + 1) [] := by
  induction n with
  | zero => simp [spec_lines]
  | succ m ih =>
      rw [List.replicate_succ, spec_lines_cons_nl, ih]
      simp [List.replicate_succ]

/-- The 514-line text used as concrete input for C10. -/
def c10_text : List Char := List.replicate 513 '\n'

/-- Witness for C10 at a concrete over-long input. -/
theorem c10_truncate_witness :
    (load_document base_state c10_text).lines =
      (spec_lines c10_text).take MAX_LINE_COUNT ∧
    (load_document base_state c10_text).lines.length = MAX_LINE_COUNT ∧
    (load_document base_state c10_text).status_message =
      base_state.status_message :=
  c10_truncate base_state c10_text
    (by unfold c10_text
        rw [spec_lines_replicate_nl, List.length_replicate]
        norm_num [MAX_LINE_COUNT])

/-! ### C7: viewport vertical adjustment -/

/-- Modelled from the spec: the claimed vertical scroll rule — cursor above
the window pulls the top up to it, cursor at/below the window puts the top
at `cursor - body_rows + 1`, otherwise the top stays. -/
def viewport_top_rule (cl top body : Int) : Int :=
  if cl < top then cl
  else if top + body ≤ cl then cl - body + 1
  else top

/-- The concrete viewport scenario of the spec: 11 lines, `body_rows = 5`,
`top = 0`, cursor on line 10. -/
def viewport_example : VState :=
  { base_state with lines := List.replicate 11 [], cursor_line := 10,
                    viewport_top := 0, body_rows := 5 }

/-- C7: `adjust_viewport` computes exactly the spec's vertical rule, with
the result clamped into `[0, line_count - 1]`; in the concrete scenario
(`body_rows = 5`, `top = 0`, cursor on line 10) the new top is 6. -/
theorem c7_adjust_viewport (s : VState) (h : 1 ≤ s.lines.length)
    (hb : 1 ≤ s.body_rows) :
    (adjust_viewport s).viewport_top =
      max 0 (min (viewport_top_rule s.cursor_line s.viewport_top s.body_rows)
                 ((s.lines.length : Int) - 1)) ∧
    (adjust_viewport viewport_example).viewport_top = 6 := by
  constructor
  · simp only [adjust_viewport, viewport_top_rule, min_def, max_def]
    split_ifs <;> omega
  · decide

/-- Witness for C7 at the spec's concrete scenario. -/
theorem c7_adjust_viewport_witness :
    (adjust_viewport viewport_example).viewport_top =
      max 0 (min (viewport_top_rule viewport_example.cursor_line
                    viewport_example.viewport_top viewport_example.body_rows)
                 ((viewport_example.lines.length : Int) - 1)) ∧
    (adjust_viewport viewport_example).viewport_top = 6 :=
  c7_adjust_viewport viewport_example (by decide) (by decide)

/-! ### C8: index handling of insert_line and delete_line -/

/-- A concrete two-line document for the C8 experiments. -/
def two_line_state : VState := { base_state with lines := [['x'], ['y']] }

/-- C8 counterexample: `delete_line` does NOT clamp an out-of-range index —
`delete_line (-1)` is a no-op, it does not delete line 0 (which would leave
the one-line document `["y"]`). -/
theorem c8_counterexample :
    delete_line two_line_state (-1) = two_line_state ∧
    (delete_line two_line_state (-1)).lines = [['x'], ['y']] ∧
    (delete_line two_line_state 0).lines = [['y']] ∧
    ¬(delete_line two_line_state (-1)).lines = [['y']] := by
  refine ⟨by decide, by decide, by decide, by decide⟩

/-- C8 amended: `insert_line` clamps its index into `[0, line_count]`
before use, so an out-of-range insertion index behaves like the nearest
in-range one; `delete_line`, however, treats an out-of-range index as a
silent no-op (the state is returned unchanged) — in neither case is an
out-of-range failure surfaced. -/
theorem c8_amended :
    (∀ (s : VState) (i : Int) (t : List Char),
        insert_line s i t =
          insert_line s
            (if i < 0 then 0
             else if (s.lines.length : Int) < i then (s.lines.length : Int) else i) t) ∧
    (∀ (s : VState) (i : Int),
        (i < 0 ∨ (s.lines.length : Int) ≤ i) → delete_line s i = s) := by
  constructor
  · intro s i t
    unfold insert_line
    by_cases hcap : MAX_LINE_COUNT ≤ s.lines.length
    · simp [hcap]
    · simp only [hcap, if_false]
      split_ifs <;> rfl
  · intro s i h
    unfold delete_line
    rw [if_pos h]

/-- Witness for C8 (amended) at a concrete out-of-range delete index. -/
theorem c8_amended_witness : delete_line two_line_state 5 = two_line_state :=
  c8_amended.2 two_line_state 5 (Or.inr (by decide))

/-! ### C9: the dd chord -/

/-- The chord scenario document: two lines `x`, `y`, cursor at (0, 0). -/
def chord_state : VState := { base_state with lines := [['x'], ['y']] }

/-- The chord state with the pending-chord flag already set. -/
def chord_pending : VState := { chord_state with pending_delete := true }

/-- C9: in NORMAL mode `d` sets the pending-chord flag; a second `d`
deletes the current line (on `["x","y"]` with the cursor on line 0 this
leaves `["y"]`, cursor (0, 0), flag cleared); any other key clears the flag
and still receives its ordinary NORMAL-mode treatment in the same handler
call. -/
theorem c9_chord :
    ((handle_normal_key K0 chord_state (ch 'd')).pending_delete = true ∧
     (handle_normal_key K0 (handle_normal_key K0 chord_state (ch 'd')) (ch 'd')).lines
       = [['y']] ∧
     (handle_normal_key K0 (handle_normal_key K0 chord_state (ch 'd')) (ch 'd')).cursor_line
       = 0 ∧
     (handle_normal_key K0 (handle_normal_key K0 chord_state (ch 'd')) (ch 'd')).cursor_col
       = 0 ∧
     (handle_normal_key K0 (handle_normal_key K0 chord_state (ch 'd')) (ch 'd')).pending_delete
       = false) ∧
    (∀ (K : Keys) (s : VState) (key : Int), s.pending_delete = true → ¬key = ch 'd' →
        handle_normal_key K s key =
          normal_key_action K { s with pending_delete := false } key ∧
        handle_normal_key K s key =
          handle_normal_key K { s with pending_delete := false } key) := by
  refine ⟨by decide, ?_⟩
  intro K s key hp hk
  constructor
  · simp [handle_normal_key, hp, hk]
  · simp [handle_normal_key, hp, hk]

/-- Witness for C9's chord-cancellation part at a concrete key. -/
theorem c9_chord_witness :
    handle_normal_key K0 chord_pending (ch 'j') =
      normal_key_action K0 { chord_pending with pending_delete := false } (ch 'j') ∧
    handle_normal_key K0 chord_pending (ch 'j') =
      handle_normal_key K0 { chord_pending with pending_delete := false } (ch 'j') :=
  c9_chord.2 K0 chord_pending (ch 'j') rfl (by decide)

/-! ### The command interpreter branch by branch -/

theorem execute_command_q (s : VState) (h : trim s.command_buffer = ['q']) :
    execute_command s =
      if s.dirty then
        { s with status_message := "No write since last change (use :q!)",
                 mode := Mode.normal, command_buffer := [] }
      else { s with running := false, mode := Mode.normal, command_buffer := [] } := by
  simp [execute_command, set_status, h]

theorem execute_command_qbang (s : VState) (h : trim s.command_buffer = ['q', '!']) :
    execute_command s =
      { s with running := false, mode := Mode.normal, command_buffer := [] } := by
  simp [execute_command, set_status, h]

/-- C3: with the session running, `q` terminates it exactly when the dirty
flag is clear; on a dirty document it only sets the "No write since last
change" status, leaves every line in place and keeps the session running,
while `q!` terminates unconditionally, with no storage write and the
document untouched. -/
theorem c3_quit (s : VState) (hrun : s.running = true) :
    (trim s.command_buffer = ['q'] →
       (((execute_command s).running = false) ↔ s.dirty = false) ∧
       (s.dirty = true →
          (execute_command s).status_message = "No write since last change (use :q!)" ∧
          (execute_command s).lines = s.lines ∧
          (execute_command s).running = true)) ∧
    (trim s.command_buffer = ['q', '!'] →
       (execute_command s).running = false ∧
       (execute_command s).fs = s.fs ∧
       (execute_command s).lines = s.lines) := by
  constructor
  · intro h
    rw [execute_command_q s h]
    cases hd : s.dirty
    · simp
    · simp [hrun]
  · intro h
    rw [execute_command_qbang s h]
    simp

/-- A dirty state whose command buffer holds `q`. -/
def dirty_q_state : VState :=
  { base_state with dirty := true, mode := Mode.command, command_buffer := ['q'] }

/-- Witness for C3 on a concrete dirty state. -/
theorem c3_quit_witness :
    (trim dirty_q_state.command_buffer = ['q'] →
       (((execute_command dirty_q_state).running = false) ↔
          dirty_q_state.dirty = false) ∧
       (dirty_q_state.dirty = true →
          (execute_command dirty_q_state).status_message =
            "No write since last change (use :q!)" ∧
          (execute_command dirty_q_state).lines = dirty_q_state.lines ∧
          (execute_command dirty_q_state).running = true)) ∧
    (trim dirty_q_state.command_buffer = ['q', '!'] →
       (execute_command dirty_q_state).running = false ∧
       (execute_command dirty_q_state).fs = dirty_q_state.fs ∧
       (execute_command dirty_q_state).lines = dirty_q_state.lines) :=
  c3_quit dirty_q_state rfl

theorem save_to_pos (s : VState) (path : List Char) (h : ¬path.length = 0) :
    save_to s path =
      (true, { s with fs := fs_store s.fs path (join_lines s.lines), dirty := false,
                      status_message := "file written" }) := by
  simp [save_to, set_status, h]

theorem execute_command_wq (s : VState)
    (h : trim s.command_buffer = ['w', 'q'] ∨ trim s.command_buffer = ['w', 'q', '!']) :
    execute_command s =
      if s.filename.length = 0 then
        { s with status_message := "Specify file name first",
                 mode := Mode.normal, command_buffer := [] }
      else
        { s with fs := fs_store s.fs s.filename (join_lines s.lines), dirty := false,
                 status_message := "file written", running := false,
                 mode := Mode.normal, command_buffer := [] } := by
  by_cases hf : s.filename.length = 0
  · cases h with
    | inl h => simp [execute_command, set_status, h, hf]
    | inr h => simp [execute_command, set_status, h, hf]
  · cases h with
    | inl h => simp [execute_command, set_status, h, hf, save_to_pos s s.filename hf]
    | inr h => simp [execute_command, set_status, h, hf, save_to_pos s s.filename hf]

/-- C4 amended: `wq` / `wq!` with a bound path always writes the joined
document to storage, clears the dirty flag and terminates the session —
the status the storage reports for the write is ignored by the source, so
a reported write failure does not prevent termination; only a missing
path makes `wq` neither save nor quit. -/
theorem c4_wq (s : VState)
    (h : trim s.command_buffer = ['w', 'q'] ∨ trim s.command_buffer = ['w', 'q', '!']) :
    (s.filename.length = 0 →
       (execute_command s).running = s.running ∧
       (execute_command s).fs = s.fs ∧
       (execute_command s).dirty = s.dirty ∧
       (execute_command s).status_message = "Specify file name first") ∧
    (¬s.filename.length = 0 →
       (execute_command s).running = false ∧
       (execute_command s).fs = fs_store s.fs s.filename (join_lines s.lines) ∧
       (execute_command s).dirty = false) := by
  rw [execute_command_wq s h]
  constructor
  · intro hf
    simp [hf]
  · intro hf
    simp [hf]

/-- A dirty session bound to file `f`, with the storage reporting write
failure and the command buffer holding `wq`. -/
def wq_fail_state : VState :=
  { base_state with dirty := true, write_ok := false, filename := ['f'],
                    mode := Mode.command, command_buffer := ['w', 'q'] }

/-- C4 counterexample: `save_to` discards the status `writeall` reports, so
even when the storage reports failure (`write_ok = false`), `wq` still
terminates the session — refuting the claim that a reported storage-write
failure prevents termination. -/
theorem c4_counterexample :
    wq_fail_state.write_ok = false ∧
    wq_fail_state.dirty = true ∧
    ¬wq_fail_state.filename.length = 0 ∧
    (execute_command wq_fail_state).running = false := by
  exact ⟨rfl, rfl, by decide, by decide⟩

/-- Witness for C4 (amended) on the concrete `wq` state. -/
theorem c4_wq_witness :
    (wq_fail_state.filename.length = 0 →
       (execute_command wq_fail_state).running = wq_fail_state.running ∧
       (execute_command wq_fail_state).fs = wq_fail_state.fs ∧
       (execute_command wq_fail_state).dirty = wq_fail_state.dirty ∧
       (execute_command wq_fail_state).status_message = "Specify file name first") ∧
    (¬wq_fail_state.filename.length = 0 →
       (execute_command wq_fail_state).running = false ∧
       (execute_command wq_fail_state).fs =
         fs_store wq_fail_state.fs wq_fail_state.filename
           (join_lines wq_fail_state.lines) ∧
       (execute_command wq_fail_state).dirty = false) :=
  c4_wq wq_fail_state (Or.inl (by decide))

/-! ### Dirty-flag bookkeeping of the primitives -/

theorem load_document_dirty (s : VState) (T : List Char) :
    (load_document s T).dirty = false := rfl

theorem open_document_dirty (s : VState) (path : List Char) :
    (open_document s path).dirty = false := by
  unfold open_document
  dsimp only
  split
  · simp [set_status, load_document_dirty]
  · simp [set_status]

theorem clamp_cursor_dirty (s : VState) : (clamp_cursor s).dirty = s.dirty := by
  unfold clamp_cursor
  split_ifs <;> rfl

theorem move_left_dirty (s : VState) : (move_left s).dirty = s.dirty := by
  unfold move_left
  split_ifs <;> rfl

theorem move_right_dirty (s : VState) : (move_right s).dirty = s.dirty := by
  unfold move_right
  split_ifs <;> rfl

theorem move_up_dirty (s : VState) : (move_up s).dirty = s.dirty := by
  unfold move_up
  split_ifs <;> rfl

theorem move_down_dirty (s : VState) : (move_down s).dirty = s.dirty := by
  unfold move_down
  split_ifs <;> rfl

theorem page_up_dirty (s : VState) : (page_up s).dirty = s.dirty := by
  unfold page_up
  rw [clamp_cursor_dirty]

theorem page_down_dirty (s : VState) : (page_down s).dirty = s.dirty := by
  unfold page_down
  rw [clamp_cursor_dirty]

theorem insert_char_dirty (s : VState) (key : Int) :
    (insert_char s key).dirty = true := rfl

theorem insert_line_dirty (s : VState) (i : Int) (t : List Char)
    (h : s.dirty = true) : (insert_line s i t).2.dirty = true := by
  unfold insert_line
  split_ifs <;> simp [set_status, h]

theorem insert_newline_dirty (s : VState) (h : s.dirty = true) :
    (insert_newline s).dirty = true := by
  unfold insert_newline insert_line set_status
  dsimp only
  split_ifs <;> simp [h]

theorem delete_line_dirty (s : VState) (i : Int) (h : s.dirty = true) :
    (delete_line s i).dirty = true := by
  unfold delete_line
  split_ifs <;> simp [h]

theorem backspace_char_dirty (s : VState) (h : s.dirty = true) :
    (backspace_char s).dirty = true := by
  unfold backspace_char delete_line
  dsimp only
  split_ifs <;> simp [h]

theorem delete_char_forward_dirty (s : VState) (h : s.dirty = true) :
    (delete_char_forward s).dirty = true := by
  unfold delete_char_forward delete_line
  dsimp only
  split_ifs <;> simp [h]

theorem delete_current_line_dirty (s : VState) (h : s.dirty = true) :
    (delete_current_line s).dirty = true := by
  unfold delete_current_line ensure_min_line set_status delete_line
  dsimp only
  split_ifs <;> simp [h]

theorem ensure_min_line_dirty (s : VState) :
    (ensure_min_line s).dirty = s.dirty := by
  unfold ensure_min_line
  split_ifs <;> rfl

theorem exit_insert_mode_dirty (s : VState) :
    (exit_insert_mode s).dirty = s.dirty := by
  unfold exit_insert_mode set_status
  dsimp only
  rw [clamp_cursor_dirty]
  split_ifs <;> rfl

theorem set_status_dirty (s : VState) (t : String) :
    (set_status s t).dirty = s.dirty := rfl

theorem enter_insert_mode_dirty (s : VState) :
    (enter_insert_mode s).dirty = s.dirty := rfl

theorem start_command_mode_dirty (s : VState) :
    (start_command_mode s).dirty = s.dirty := rfl

theorem cancel_command_mode_dirty (s : VState) :
    (cancel_command_mode s).dirty = s.dirty := rfl

theorem append_command_char_dirty (s : VState) (key : Int) :
    (append_command_char s key).dirty = s.dirty := rfl

theorem command_backspace_dirty (s : VState) :
    (command_backspace s).dirty = s.dirty := by
  unfold command_backspace
  split_ifs <;> rfl

theorem move_home_dirty (s : VState) : (move_home s).dirty = s.dirty := rfl

theorem move_end_dirty (s : VState) : (move_end s).dirty = s.dirty := rfl

/-! ### Dirty-flag behavior of the key handlers -/

theorem normal_key_action_dirty (K : Keys) (s : VState) (key : Int)
    (h : s.dirty = true) : (normal_key_action K s key).dirty = true := by
  unfold normal_key_action
  simp only [apply_ite VState.dirty, move_left_dirty, move_right_dirty,
             move_up_dirty, move_down_dirty, move_home_dirty, move_end_dirty,
             page_up_dirty, page_down_dirty, set_status_dirty,
             enter_insert_mode_dirty, start_command_mode_dirty,
             delete_char_forward_dirty s h,
             insert_line_dirty s (s.cursor_line + 1) [] h,
             insert_line_dirty s s.cursor_line [] h, h, ite_self]

theorem handle_normal_key_dirty (K : Keys) (s : VState) (key : Int)
    (h : s.dirty = true) : (handle_normal_key K s key).dirty = true := by
  unfold handle_normal_key
  simp only [apply_ite VState.dirty, delete_current_line_dirty s h,
             normal_key_action_dirty K { s with pending_delete := false } key h,
             normal_key_action_dirty K s key h, ite_self]

theorem handle_insert_key_dirty (K : Keys) (s : VState) (key : Int)
    (h : s.dirty = true) : (handle_insert_key K s key).dirty = true := by
  unfold handle_insert_key
  simp only [apply_ite VState.dirty, exit_insert_mode_dirty, move_left_dirty,
             move_right_dirty, move_up_dirty, move_down_dirty, move_home_dirty,
             move_end_dirty, page_up_dirty, page_down_dirty,
             insert_newline_dirty s h, backspace_char_dirty s h,
             delete_char_forward_dirty s h, insert_char_dirty, h, ite_self]

theorem handle_command_key_dirty (K : Keys) (s : VState) (key : Int)
    (h : s.dirty = true) (hk : ¬key = K.key_enter) :
    (handle_command_key K s key).dirty = true := by
  unfold handle_command_key
  simp only [apply_ite VState.dirty, cancel_command_mode_dirty,
             command_backspace_dirty, append_command_char_dirty, h, hk]
  simp

theorem execute_command_empty (s : VState) (h : trim s.command_buffer = []) :
    execute_command s =
      { s with status_message := "", mode := Mode.normal, command_buffer := [] } := by
  simp [execute_command, set_status, h]

theorem execute_command_help (s : VState)
    (h : trim s.command_buffer = ['h', 'e', 'l', 'p']) :
    execute_command s =
      { s with status_message := "Commands: :w, :q, :wq, :e <file>, ESC to cancel",
               mode := Mode.normal, command_buffer := [] } := by
  simp [execute_command, set_status, h]

theorem execute_command_w (s : VState) (h : trim s.command_buffer = ['w']) :
    execute_command s =
      if s.filename.length = 0 then
        { s with status_message := "Specify file name with :w <path>",
                 mode := Mode.normal, command_buffer := [] }
      else
        { s with fs := fs_store s.fs s.filename (join_lines s.lines),
                 dirty := false, status_message := "file written",
                 mode := Mode.normal, command_buffer := [] } := by
  by_cases hf : s.filename.length = 0
  · simp [execute_command, set_status, h, hf]
  · simp [execute_command, set_status, h, hf, save_to_pos s s.filename hf]

theorem execute_command_wsp (s : VState) (t : List Char)
    (h : trim s.command_buffer = 'w' :: ' ' :: t) :
    execute_command s =
      if 0 < (trim t).length then
        { s with filename := trim t,
                 fs := fs_store s.fs (trim t) (join_lines s.lines), dirty := false,
                 status_message := "file written",
                 mode := Mode.normal, command_buffer := [] }
      else { s with status_message := "No file name provided",
                    mode := Mode.normal, command_buffer := [] } := by
  by_cases hp : 0 < (trim t).length
  · simp [execute_command, set_status, h, hp, List.isPrefixOf,
          save_to_pos { s with filename := trim t } (trim t) (by omega)]
  · simp [execute_command, set_status, h, hp, List.isPrefixOf]

theorem execute_command_esp (s : VState) (t : List Char)
    (h : trim s.command_buffer = 'e' :: ' ' :: t) :
    execute_command s =
      if 0 < (trim t).length then
        { open_document s (trim t) with mode := Mode.normal, command_buffer := [] }
      else { s with status_message := "No file path provided",
                    mode := Mode.normal, command_buffer := [] } := by
  by_cases hp : 0 < (trim t).length
  · simp [execute_command, set_status, h, hp, List.isPrefixOf]
  · simp [execute_command, set_status, h, hp, List.isPrefixOf]

theorem execute_command_unknown (s : VState)
    (h0 : ¬(trim s.command_buffer).length = 0)
    (h1 : ¬trim s.command_buffer = ['h', 'e', 'l', 'p'])
    (h2 : ¬trim s.command_buffer = ['q'])
    (h3 : ¬trim s.command_buffer = ['q', '!'])
    (h4 : ¬trim s.command_buffer = ['w'])
    (h5 : ¬trim s.command_buffer = ['w', 'q'])
    (h6 : ¬trim s.command_buffer = ['w', 'q', '!'])
    (h7 : ¬List.isPrefixOf ['w', ' '] (trim s.command_buffer))
    (h8 : ¬List.isPrefixOf ['e', ' '] (trim s.command_buffer)) :
    execute_command s =
      { s with status_message := "Unknown command",
               mode := Mode.normal, command_buffer := [] } := by
  simp [execute_command, set_status, h0, h1, h2, h3, h4, h5, h6, h7, h8]

/-- Exactly which commands clear a set dirty flag: the saving commands with
a usable path (`w`, `wq`, `wq!` with a bound file; `w <path>` with a
non-empty path) and the open command `e <path>` with a non-empty path —
nothing else. -/
theorem execute_command_clears_dirty_iff (s : VState) (hd : s.dirty = true) :
    ((execute_command s).dirty = false) ↔
      ((¬s.filename.length = 0 ∧
         (trim s.command_buffer = ['w'] ∨ trim s.command_buffer = ['w', 'q'] ∨
          trim s.command_buffer = ['w', 'q', '!'])) ∨
       (List.isPrefixOf ['w', ' '] (trim s.command_buffer) ∧
         ¬(trim ((trim s.command_buffer).drop 2)).length = 0) ∨
       (List.isPrefixOf ['e', ' '] (trim s.command_buffer) ∧
         ¬(trim ((trim s.command_buffer).drop 2)).length = 0)) := by
  by_cases h0 : (trim s.command_buffer).length = 0
  · have h0l : trim s.command_buffer = [] := List.length_eq_zero.mp h0
    rw [execute_command_empty s h0l]
    simp [hd, h0l]
  by_cases h1 : trim s.command_buffer = ['h', 'e', 'l', 'p']
  · rw [execute_command_help s h1]
    simp [hd, h1, List.isPrefixOf]
  by_cases h2 : trim s.command_buffer = ['q']
  · rw [execute_command_q s (by simpa using h2)]
    simp [hd, h2, List.isPrefixOf]
  by_cases h3 : trim s.command_buffer = ['q', '!']
  · rw [execute_command_qbang s h3]
    simp [hd, h3, List.isPrefixOf]
  by_cases h4 : trim s.command_buffer = ['w']
  · rw [execute_command_w s h4]
    by_cases hf : s.filename.length = 0
    · simp [hf, hd, h4, List.isPrefixOf]
    · simp [hf, h4, List.isPrefixOf]
  by_cases h5 : trim s.command_buffer = ['w', 'q']
  · rw [execute_command_wq s (Or.inl h5)]
    by_cases hf : s.filename.length = 0
    · simp [hf, hd, h5, List.isPrefixOf]
    · simp [hf, h5, List.isPrefixOf]
  by_cases h6 : trim s.command_buffer = ['w', 'q', '!']
  · rw [execute_command_wq s (Or.inr h6)]
    by_cases hf : s.filename.length = 0
    · simp [hf, hd, h6, List.isPrefixOf]
    · simp [hf, h6, List.isPrefixOf]
  by_cases h7 : List.isPrefixOf ['w', ' '] (trim s.command_buffer)
  · obtain ⟨t, ht⟩ := List.isPrefixOf_iff_prefix.mp h7
    have hcmd : trim s.command_buffer = 'w' :: ' ' :: t := ht.symm
    rw [execute_command_wsp s t hcmd]
    by_cases hp : 0 < (trim t).length
    · simp [hp, hcmd, List.isPrefixOf]
      exact List.ne_nil_of_length_pos hp
    · simp [hp, hd, hcmd, List.isPrefixOf]
      exact List.length_eq_zero.mp (by omega)
  by_cases h8 : List.isPrefixOf ['e', ' '] (trim s.command_buffer)
  · obtain ⟨t, ht⟩ := List.isPrefixOf_iff_prefix.mp h8
    have hcmd : trim s.command_buffer = 'e' :: ' ' :: t := ht.symm
    rw [execute_command_esp s t hcmd]
    by_cases hp : 0 < (trim t).length
    · simp [hp, hcmd, List.isPrefixOf, open_document_dirty]
      exact List.ne_nil_of_length_pos hp
    · simp [hp, hd, hcmd, List.isPrefixOf]
      exact List.length_eq_zero.mp (by omega)
  rw [execute_command_unknown s h0 h1 h2 h3 h4 h5 h6 h7 h8]
  simp [hd, h4, h5, h6, h7, h8]

/-- C5 amended: the dirty flag is set by the document mutations
(`insert_line` below capacity, in-range `delete_line`, `insert_char`, and
`insert_newline` below capacity — at full capacity `insert_newline`
truncates the current line without setting the flag); once set, no NORMAL-
or INSERT-mode key and no COMMAND-mode key other than enter clears it, and
executing a command clears it exactly for the saving commands with a
usable path (`w`, `wq`, `wq!` with a bound file, `w <path>` — regardless
of the status the storage reports for the write) and for the open command
`e <path>`, which replaces the document. -/
theorem c5_dirty_flag (K : Keys) (s : VState) (key i : Int) (t : List Char) :
    (s.lines.length < MAX_LINE_COUNT → (insert_line s i t).2.dirty = true) ∧
    (0 ≤ i → i < (s.lines.length : Int) → (delete_line s i).dirty = true) ∧
    ((insert_char s key).dirty = true) ∧
    (s.lines.length < MAX_LINE_COUNT → (insert_newline s).dirty = true) ∧
    (s.dirty = true → (handle_normal_key K s key).dirty = true) ∧
    (s.dirty = true → (handle_insert_key K s key).dirty = true) ∧
    (s.dirty = true → ¬key = K.key_enter →
       (handle_command_key K s key).dirty = true) ∧
    (s.dirty = true →
      (((execute_command s).dirty = false) ↔
        ((¬s.filename.length = 0 ∧
           (trim s.command_buffer = ['w'] ∨ trim s.command_buffer = ['w', 'q'] ∨
            trim s.command_buffer = ['w', 'q', '!'])) ∨
         (List.isPrefixOf ['w', ' '] (trim s.command_buffer) ∧
           ¬(trim ((trim s.command_buffer).drop 2)).length = 0) ∨
         (List.isPrefixOf ['e', ' '] (trim s.command_buffer) ∧
           ¬(trim ((trim s.command_buffer).drop 2)).length = 0)))) := by
  refine ⟨?_, ?_, insert_char_dirty s key, ?_, fun h => handle_normal_key_dirty K s key h,
          fun h => handle_insert_key_dirty K s key h,
          fun h hk => handle_command_key_dirty K s key h hk,
          fun h => execute_command_clears_dirty_iff s h⟩
  · intro hcap
    simp [insert_line, Nat.not_le.mpr hcap]
  · intro h1 h2
    unfold delete_line
    rw [if_neg (by omega)]
    split_ifs <;> rfl
  · intro hcap
    unfold insert_newline insert_line
    simp [set_status, List.length_set, Nat.not_le.mpr hcap]

/-- A dirty state whose command buffer holds `e g` (open file `g`). -/
def dirty_e_state : VState :=
  { base_state with dirty := true, mode := Mode.command,
                    command_buffer := ['e', ' ', 'g'] }

/-- C5 counterexample: executing `e g` (opening another file) transitions
the dirty flag from true to false although no save happens at all (the
storage is untouched) — refuting "cleared exactly by a successful save,
and never by loading or opening a file". -/
theorem c5_counterexample :
    dirty_e_state.dirty = true ∧
    (execute_command dirty_e_state).dirty = false ∧
    (execute_command dirty_e_state).fs = dirty_e_state.fs := by
  exact ⟨rfl, by decide, by decide⟩

/-- Witness for C5 (amended) at concrete inputs. -/
theorem c5_dirty_flag_witness :
    (insert_line dirty_e_state 0 ['z']).2.dirty = true ∧
    (delete_line dirty_e_state 0).dirty = true ∧
    (insert_char dirty_e_state (ch 'z')).dirty = true ∧
    (insert_newline dirty_e_state).dirty = true ∧
    (handle_normal_key K0 dirty_e_state (ch 'x')).dirty = true ∧
    (handle_insert_key K0 dirty_e_state (ch 'x')).dirty = true ∧
    (handle_command_key K0 dirty_e_state (ch 'x')).dirty = true ∧
    (((execute_command dirty_e_state).dirty = false) ↔
      ((¬dirty_e_state.filename.length = 0 ∧
         (trim dirty_e_state.command_buffer = ['w'] ∨
          trim dirty_e_state.command_buffer = ['w', 'q'] ∨
          trim dirty_e_state.command_buffer = ['w', 'q', '!'])) ∨
       (List.isPrefixOf ['w', ' '] (trim dirty_e_state.command_buffer) ∧
         ¬(trim ((trim dirty_e_state.command_buffer).drop 2)).length = 0) ∨
       (List.isPrefixOf ['e', ' '] (trim dirty_e_state.command_buffer) ∧
         ¬(trim ((trim dirty_e_state.command_buffer).drop 2)).length = 0))) := by
  obtain ⟨a1, a2, a3, a4, a5, a6, a7, a8⟩ :=
    c5_dirty_flag K0 dirty_e_state (ch 'x') 0 ['z']
  exact ⟨a1 (by decide), a2 (by decide) (by decide), a3, a4 (by decide),
         a5 rfl, a6 rfl, a7 rfl (by decide), a8 rfl⟩

/-! ### C6: behavior at full capacity -/

/-- C6 amended: at full capacity (`line_count = 512`) `insert_line` always
fails with the "buffer full" status and changes nothing, so the `o` and `O`
actions leave every line and the mode untouched; but enter in INSERT mode
first replaces the current line by its prefix up to the cursor and only
then runs the failing insertion, so the text after the cursor is lost (the
document stays fully unchanged only when the cursor sits at end of line) —
in all cases no line is inserted and `line_count` stays 512. -/
theorem c6_capacity (s : VState) (hfull : s.lines.length = MAX_LINE_COUNT)
    (hpend : s.pending_delete = false) :
    (∀ (i : Int) (t : List Char),
        insert_line s i t = (false, set_status s "buffer full")) ∧
    ((handle_normal_key K0 s (ch 'o')).lines = s.lines ∧
     (handle_normal_key K0 s (ch 'o')).mode = s.mode ∧
     (handle_normal_key K0 s (ch 'o')).status_message = "buffer full") ∧
    ((handle_normal_key K0 s (ch 'O')).lines = s.lines ∧
     (handle_normal_key K0 s (ch 'O')).mode = s.mode ∧
     (handle_normal_key K0 s (ch 'O')).status_message = "buffer full") ∧
    ((insert_newline s).lines =
       s.lines.set s.cursor_line.toNat
         ((s.lines.getD s.cursor_line.toNat []).take
           (if line_length s s.cursor_line < s.cursor_col then
              line_length s s.cursor_line
            else s.cursor_col).toNat) ∧
     (insert_newline s).lines.length = MAX_LINE_COUNT ∧
     (insert_newline s).status_message = "buffer full") := by
  have hins : ∀ (i : Int) (t : List Char),
      insert_line s i t = (false, set_status s "buffer full") := by
    intro i t
    unfold insert_line
    rw [if_pos (by omega)]
  refine ⟨hins, ?_, ?_, ?_⟩
  · simp +decide [handle_normal_key, hpend, normal_key_action, K0, ch, hins,
                  set_status]
  · simp +decide [handle_normal_key, hpend, normal_key_action, K0, ch, hins,
                  set_status]
  · unfold insert_newline insert_line
    simp [set_status, List.length_set, hfull]

/-- A full 512-line document (every line `ab`) with the cursor at (0, 1),
mid-line. -/
def full_state : VState :=
  { base_state with lines := List.replicate 512 ['a', 'b'], cursor_col := 1 }

set_option maxRecDepth 8000 in
/-- C6 counterexample: with the buffer full and the cursor mid-line, enter
in INSERT mode (insert_newline) inserts no line but truncates the current
line (line 0 becomes `a` instead of `ab`), so the document is NOT left
completely unchanged. -/
theorem c6_counterexample :
    full_state.lines.length = MAX_LINE_COUNT ∧
    (insert_newline full_state).lines.length = MAX_LINE_COUNT ∧
    (insert_newline full_state).lines =
      ['a'] :: List.replicate 511 ['a', 'b'] ∧
    ¬(insert_newline full_state).lines = full_state.lines := by
  refine ⟨?_, ?_, ?_, ?_⟩ <;> decide

set_option maxRecDepth 8000 in
/-- Witness for C6 (amended) at the concrete full document. -/
theorem c6_capacity_witness :
    (∀ (i : Int) (t : List Char),
        insert_line full_state i t = (false, set_status full_state "buffer full")) ∧
    ((handle_normal_key K0 full_state (ch 'o')).lines = full_state.lines ∧
     (handle_normal_key K0 full_state (ch 'o')).mode = full_state.mode ∧
     (handle_normal_key K0 full_state (ch 'o')).status_message = "buffer full") ∧
    ((handle_normal_key K0 full_state (ch 'O')).lines = full_state.lines ∧
     (handle_normal_key K0 full_state (ch 'O')).mode = full_state.mode ∧
     (handle_normal_key K0 full_state (ch 'O')).status_message = "buffer full") ∧
    ((insert_newline full_state).lines =
       full_state.lines.set full_state.cursor_line.toNat
         ((full_state.lines.getD full_state.cursor_line.toNat []).take
           (if line_length full_state full_state.cursor_line < full_state.cursor_col then
              line_length full_state full_state.cursor_line
            else full_state.cursor_col).toNat) ∧
     (insert_newline full_state).lines.length = MAX_LINE_COUNT ∧
     (insert_newline full_state).status_message = "buffer full") :=
  c6_capacity full_state (by decide) (by decide)

/-! ### Line-count preservation of every operation -/

theorem clamp_cursor_lines (s : VState) : (clamp_cursor s).lines = s.lines := by
  unfold clamp_cursor
  split_ifs <;> rfl

theorem adjust_viewport_lines (s : VState) :
    (adjust_viewport s).lines = s.lines := rfl

theorem update_screen_metrics_lines (s : VState) (rows cols : Int) :
    (update_screen_metrics s rows cols).lines = s.lines := rfl

theorem render_state_lines (s : VState) (rows cols : Int) :
    (render_state s rows cols).lines = s.lines := by
  unfold render_state
  rw [adjust_viewport_lines, update_screen_metrics_lines, clamp_cursor_lines]

theorem move_left_lines (s : VState) : (move_left s).lines = s.lines := by
  unfold move_left
  split_ifs <;> rfl

theorem move_right_lines (s : VState) : (move_right s).lines = s.lines := by
  unfold move_right
  split_ifs <;> rfl

theorem move_up_lines (s : VState) : (move_up s).lines = s.lines := by
  unfold move_up
  split_ifs <;> rfl

theorem move_down_lines (s : VState) : (move_down s).lines = s.lines := by
  unfold move_down
  split_ifs <;> rfl

theorem move_home_lines (s : VState) : (move_home s).lines = s.lines := rfl

theorem move_end_lines (s : VState) : (move_end s).lines = s.lines := rfl

theorem page_up_lines (s : VState) : (page_up s).lines = s.lines := by
  unfold page_up
  rw [clamp_cursor_lines]

theorem page_down_lines (s : VState) : (page_down s).lines = s.lines := by
  unfold page_down
  rw [clamp_cursor_lines]

theorem set_status_lines (s : VState) (t : String) :
    (set_status s t).lines = s.lines := rfl

theorem enter_insert_mode_lines (s : VState) :
    (enter_insert_mode s).lines = s.lines := rfl

theorem exit_insert_mode_lines (s : VState) :
    (exit_insert_mode s).lines = s.lines := by
  unfold exit_insert_mode set_status
  dsimp only
  rw [clamp_cursor_lines]
  split_ifs <;> rfl

theorem start_command_mode_lines (s : VState) :
    (start_command_mode s).lines = s.lines := rfl

theorem cancel_command_mode_lines (s : VState) :
    (cancel_command_mode s).lines = s.lines := rfl

theorem append_command_char_lines (s : VState) (key : Int) :
    (append_command_char s key).lines = s.lines := rfl

theorem command_backspace_lines (s : VState) :
    (command_backspace s).lines = s.lines := by
  unfold command_backspace
  split_ifs <;> rfl

theorem save_to_lines (s : VState) (path : List Char) :
    (save_to s path).2.lines = s.lines := by
  unfold save_to set_status
  dsimp only
  split_ifs <;> rfl

theorem ensure_min_line_len (s : VState) :
    1 ≤ (ensure_min_line s).lines.length := by
  unfold ensure_min_line
  split_ifs with h
  · simp
  · omega

theorem insert_char_len (s : VState) (key : Int) :
    (insert_char s key).lines.length = s.lines.length := by
  simp [insert_char]

theorem insert_line_len (s : VState) (i : Int) (t : List Char) :
    s.lines.length ≤ (insert_line s i t).2.lines.length := by
  unfold insert_line
  dsimp only
  split_ifs
  · exact le_refl _
  all_goals
    rw [List.length_insertIdx _ _ (by omega)]
    omega

theorem lines_length_ite (c : Prop) [inst : Decidable c] (a b : VState) :
    (if c then a else b).lines.length =
      if c then a.lines.length else b.lines.length := by
  split_ifs <;> rfl

theorem delete_line_len (s : VState) (i : Int) (h : 1 ≤ s.lines.length) :
    1 ≤ (delete_line s i).lines.length := by
  unfold delete_line
  simp only [lines_length_ite]
  split_ifs with h1 h2
  · exact h
  · simp
  · simp only [List.length_eraseIdx]
    split_ifs <;> omega

theorem insert_newline_len (s : VState) (h : 1 ≤ s.lines.length) :
    1 ≤ (insert_newline s).lines.length := by
  unfold insert_newline
  dsimp only
  split_ifs
  all_goals
    try dsimp only
    refine le_trans ?_ (insert_line_len _ _ _)
    simpa [List.length_set] using h

theorem backspace_char_len (s : VState) (h : 1 ≤ s.lines.length) :
    1 ≤ (backspace_char s).lines.length := by
  unfold backspace_char
  dsimp only
  split_ifs <;>
    first
      | simpa [List.length_set] using h
      | exact delete_line_len _ _ (by simpa [List.length_set] using h)

theorem delete_char_forward_len (s : VState) (h : 1 ≤ s.lines.length) :
    1 ≤ (delete_char_forward s).lines.length := by
  unfold delete_char_forward
  dsimp only
  split_ifs <;>
    first
      | simpa [List.length_set] using h
      | exact delete_line_len _ _ (by simpa [List.length_set] using h)

theorem delete_current_line_len (s : VState) :
    1 ≤ (delete_current_line s).lines.length := by
  unfold delete_current_line set_status
  dsimp only
  split_ifs <;> exact ensure_min_line_len _

theorem load_document_len (s : VState) (T : List Char) :
    1 ≤ (load_document s T).lines.length := by
  rw [load_document_lines, List.length_take]
  have h2 : 0 < (spec_lines T).length :=
    List.length_pos.mpr (spec_lines_ne_nil T)
  simp [MAX_LINE_COUNT]
  omega

theorem open_document_len (s : VState) (path : List Char) :
    1 ≤ (open_document s path).lines.length := by
  unfold open_document
  dsimp only
  split
  · rw [set_status_lines]
    exact load_document_len _ _
  · exact ensure_min_line_len _

theorem execute_command_len (s : VState) (h : 1 ≤ s.lines.length) :
    1 ≤ (execute_command s).lines.length := by
  by_cases h0 : (trim s.command_buffer).length = 0
  · rw [execute_command_empty s (List.length_eq_zero.mp h0)]
    exact h
  by_cases h1 : trim s.command_buffer = ['h', 'e', 'l', 'p']
  · rw [execute_command_help s h1]
    exact h
  by_cases h2 : trim s.command_buffer = ['q']
  · rw [execute_command_q s h2]
    split_ifs <;> exact h
  by_cases h3 : trim s.command_buffer = ['q', '!']
  · rw [execute_command_qbang s h3]
    exact h
  by_cases h4 : trim s.command_buffer = ['w']
  · rw [execute_command_w s h4]
    split_ifs <;> exact h
  by_cases h5 : trim s.command_buffer = ['w', 'q']
  · rw [execute_command_wq s (Or.inl h5)]
    split_ifs <;> exact h
  by_cases h6 : trim s.command_buffer = ['w', 'q', '!']
  · rw [execute_command_wq s (Or.inr h6)]
    split_ifs <;> exact h
  by_cases h7 : List.isPrefixOf ['w', ' '] (trim s.command_buffer)
  · obtain ⟨t, ht⟩ := List.isPrefixOf_iff_prefix.mp h7
    rw [execute_command_wsp s t ht.symm]
    split_ifs <;> exact h
  by_cases h8 : List.isPrefixOf ['e', ' '] (trim s.command_buffer)
  · obtain ⟨t, ht⟩ := List.isPrefixOf_iff_prefix.mp h8
    rw [execute_command_esp s t ht.symm]
    split_ifs
    · exact open_document_len _ _
    · exact h
  rw [execute_command_unknown s h0 h1 h2 h3 h4 h5 h6 h7 h8]
  exact h

theorem normal_key_action_len (K : Keys) (s : VState) (key : Int)
    (h : 1 ≤ s.lines.length) :
    1 ≤ (normal_key_action K s key).lines.length := by
  unfold normal_key_action
  by_cases c1 : key = ch 'h' ∨ key = K.key_left
  · rw [if_pos c1, move_left_lines]
    exact h
  rw [if_neg c1]
  by_cases c2 : key = ch 'l' ∨ key = K.key_right
  · rw [if_pos c2, move_right_lines]
    exact h
  rw [if_neg c2]
  by_cases c3 : key = ch 'j' ∨ key = K.key_down
  · rw [if_pos c3, move_down_lines]
    exact h
  rw [if_neg c3]
  by_cases c4 : key = ch 'k' ∨ key = K.key_up
  · rw [if_pos c4, move_up_lines]
    exact h
  rw [if_neg c4]
  by_cases c5 : key = ch '0' ∨ key = K.key_home
  · rw [if_pos c5, move_home_lines]
    exact h
  rw [if_neg c5]
  by_cases c6 : key = ch '$' ∨ key = K.key_end
  · rw [if_pos c6, move_end_lines]
    exact h
  rw [if_neg c6]
  by_cases c7 : key = K.key_pageup
  · rw [if_pos c7, page_up_lines]
    exact h
  rw [if_neg c7]
  by_cases c8 : key = K.key_pagedown
  · rw [if_pos c8, page_down_lines]
    exact h
  rw [if_neg c8]
  by_cases c9 : key = ch 'x' ∨ key = K.key_delete
  · rw [if_pos c9]
    exact delete_char_forward_len s h
  rw [if_neg c9]
  by_cases c10 : key = ch 'd'
  · rw [if_pos c10, set_status_lines]
    exact h
  rw [if_neg c10]
  by_cases c11 : key = ch 'i'
  · rw [if_pos c11, enter_insert_mode_lines]
    exact h
  rw [if_neg c11]
  by_cases c12 : key = ch 'a'
  · rw [if_pos c12, enter_insert_mode_lines, move_right_lines]
    exact h
  rw [if_neg c12]
  by_cases c13 : key = ch 'o'
  · rw [if_pos c13]
    dsimp only
    by_cases cr : (insert_line s (s.cursor_line + 1) ([] : List Char)).1 = true
    · rw [if_pos cr, enter_insert_mode_lines]
      exact le_trans h (insert_line_len s _ _)
    · rw [if_neg cr]
      exact le_trans h (insert_line_len s _ _)
  rw [if_neg c13]
  by_cases c14 : key = ch 'O'
  · rw [if_pos c14]
    dsimp only
    by_cases cr : (insert_line s s.cursor_line ([] : List Char)).1 = true
    · rw [if_pos cr, enter_insert_mode_lines]
      exact le_trans h (insert_line_len s _ _)
    · rw [if_neg cr]
      exact le_trans h (insert_line_len s _ _)
  rw [if_neg c14]
  by_cases c15 : key = ch ':'
  · rw [if_pos c15, start_command_mode_lines]
    exact h
  rw [if_neg c15]
  by_cases c16 : key = K.key_escape
  · rw [if_pos c16, set_status_lines]
    exact h
  rw [if_neg c16]
  exact h

theorem handle_normal_key_len (K : Keys) (s : VState) (key : Int)
    (h : 1 ≤ s.lines.length) :
    1 ≤ (handle_normal_key K s key).lines.length := by
  unfold handle_normal_key
  split_ifs
  · exact delete_current_line_len s
  · exact normal_key_action_len K _ key h
  · exact normal_key_action_len K s key h

theorem handle_insert_key_len (K : Keys) (s : VState) (key : Int)
    (h : 1 ≤ s.lines.length) :
    1 ≤ (handle_insert_key K s key).lines.length := by
  unfold handle_insert_key
  by_cases c1 : key = K.key_escape
  · rw [if_pos c1, exit_insert_mode_lines]
    exact h
  rw [if_neg c1]
  by_cases c2 : key = K.key_left
  · rw [if_pos c2, move_left_lines]
    exact h
  rw [if_neg c2]
  by_cases c3 : key = K.key_right
  · rw [if_pos c3, move_right_lines]
    exact h
  rw [if_neg c3]
  by_cases c4 : key = K.key_up
  · rw [if_pos c4, move_up_lines]
    exact h
  rw [if_neg c4]
  by_cases c5 : key = K.key_down
  · rw [if_pos c5, move_down_lines]
    exact h
  rw [if_neg c5]
  by_cases c6 : key = K.key_home
  · rw [if_pos c6, move_home_lines]
    exact h
  rw [if_neg c6]
  by_cases c7 : key = K.key_end
  · rw [if_pos c7, move_end_lines]
    exact h
  rw [if_neg c7]
  by_cases c8 : key = K.key_pageup
  · rw [if_pos c8, page_up_lines]
    exact h
  rw [if_neg c8]
  by_cases c9 : key = K.key_pagedown
  · rw [if_pos c9, page_down_lines]
    exact h
  rw [if_neg c9]
  by_cases c10 : key = K.key_enter
  · rw [if_pos c10]
    exact insert_newline_len s h
  rw [if_neg c10]
  by_cases c11 : key = K.key_backspace
  · rw [if_pos c11]
    exact backspace_char_len s h
  rw [if_neg c11]
  by_cases c12 : key = K.key_delete
  · rw [if_pos c12]
    exact delete_char_forward_len s h
  rw [if_neg c12]
  by_cases c13 : key = K.key_tab
  · rw [if_pos c13]
    rw [show (insert_char (insert_char s 32) 32).lines.length = s.lines.length by
          rw [insert_char_len, insert_char_len]]
    exact h
  rw [if_neg c13]
  by_cases c14 : 32 ≤ key
  · rw [if_pos c14, insert_char_len]
    exact h
  rw [if_neg c14]
  exact h

theorem handle_command_key_len (K : Keys) (s : VState) (key : Int)
    (h : 1 ≤ s.lines.length) :
    1 ≤ (handle_command_key K s key).lines.length := by
  unfold handle_command_key
  split_ifs
  · rw [cancel_command_mode_lines]
    exact h
  · exact execute_command_len s h
  · rw [command_backspace_lines]
    exact h
  · rw [append_command_char_lines]
    exact h
  · exact h

theorem loop_step_len (K : Keys) (s : VState) (rows cols key : Int)
    (h : 1 ≤ s.lines.length) :
    1 ≤ (loop_step K s rows cols key).lines.length := by
  unfold loop_step
  dsimp only
  have hr : 1 ≤ (render_state s rows cols).lines.length := by
    rw [render_state_lines]
    exact h
  split_ifs
  · exact hr
  · exact handle_insert_key_len K _ key hr
  · exact handle_command_key_len K _ key hr
  · exact handle_normal_key_len K _ key hr

/-- Every reachable session state keeps at least one line. -/
theorem reachable_len (K : Keys) (fs : List (List Char × List Char)) (wok : Bool)
    (path : List Char) (s : VState) (h : Reachable K fs wok path s) :
    1 ≤ s.lines.length := by
  induction h with
  | init =>
      unfold init_state
      dsimp only
      exact ensure_min_line_len _
  | step s rows cols key hr ih => exact loop_step_len K s rows cols key ih

/-- After `clamp_cursor`, the cursor satisfies the spec's bounds whenever
the document is non-empty. -/
theorem clamp_cursor_spec (s : VState) (h : 1 ≤ s.lines.length) :
    0 ≤ (clamp_cursor s).cursor_line ∧
    (clamp_cursor s).cursor_line < (s.lines.length : Int) ∧
    0 ≤ (clamp_cursor s).cursor_col ∧
    (clamp_cursor s).cursor_col ≤ line_length s (clamp_cursor s).cursor_line := by
  unfold clamp_cursor line_length
  dsimp only
  split_ifs <;>
    (try dsimp only) <;> refine ⟨by omega, by omega, by omega, by omega⟩

/-- C2 amended: every reachable session state keeps `line_count ≥ 1`, and
the cursor bounds (`0 ≤ line < line_count`, `0 ≤ col ≤ length of the cursor
line`) hold after `clamp_cursor` — which the event loop runs at the start
of every render, so before the cursor is next read — though not necessarily
in the raw state right after a key handler returns; deleting the last
remaining line resets it to empty content instead of removing it. -/
theorem c2_invariant (K : Keys) (fs : List (List Char × List Char)) (wok : Bool)
    (path : List Char) (s : VState) (h : Reachable K fs wok path s) :
    1 ≤ s.lines.length ∧
    (0 ≤ (clamp_cursor s).cursor_line ∧
     (clamp_cursor s).cursor_line < (s.lines.length : Int) ∧
     0 ≤ (clamp_cursor s).cursor_col ∧
     (clamp_cursor s).cursor_col ≤
       line_length s (clamp_cursor s).cursor_line) ∧
    (s.lines.length = 1 → (delete_line s 0).lines = [[]]) := by
  have hlen := reachable_len K fs wok path s h
  refine ⟨hlen, clamp_cursor_spec s hlen, ?_⟩
  intro h1
  unfold delete_line
  rw [if_neg (by omega), if_pos h1]

/-- The state reached from a fresh session after the key events `i`, `a`,
enter, backspace (console size 24×80 at each frame). -/
def after_backspace_state : VState :=
  loop_step K0 (loop_step K0 (loop_step K0 (loop_step K0
    (init_state [] true ['f']) 24 80 (ch 'i')) 24 80 (ch 'a')) 24 80 10) 24 80 8

/-- C2 counterexample: a reachable state violating the cursor invariant.
After `i`, `a`, enter, backspace, `backspace_char` merges the two lines and
decrements `cursor_line` once itself after `delete_line` already pulled it
back, leaving the reachable post-handler state with `cursor_line = -1`
(the invariant is only restored by the `clamp_cursor` in the next render). -/
theorem c2_counterexample :
    Reachable K0 [] true ['f'] after_backspace_state ∧
    after_backspace_state.lines = [['a']] ∧
    after_backspace_state.cursor_line = -1 ∧
    ¬(0 ≤ after_backspace_state.cursor_line) := by
  refine ⟨?_, by decide, by decide, by decide⟩
  exact Reachable.step _ 24 80 8 (Reachable.step _ 24 80 10
    (Reachable.step _ 24 80 (ch 'a') (Reachable.step _ 24 80 (ch 'i')
      Reachable.init)))

/-- Witness for C2 (amended) at the freshly initialized session. -/
theorem c2_invariant_witness :
    1 ≤ base_state.lines.length ∧
    (0 ≤ (clamp_cursor base_state).cursor_line ∧
     (clamp_cursor base_state).cursor_line < (base_state.lines.length : Int) ∧
     0 ≤ (clamp_cursor base_state).cursor_col ∧
     (clamp_cursor base_state).cursor_col ≤
       line_length base_state (clamp_cursor base_state).cursor_line) ∧
    (base_state.lines.length = 1 → (delete_line base_state 0).lines = [[]]) :=
  c2_invariant K0 [] true ['f'] base_state Reachable.init

end MiniVi
